import Mathlib

/-!
Verification of the job ingestion / scoring / digest pipeline.

The definitions below are a shallow embedding of the source of the
job-agent repository: the score normalization and digest selection of the
send-digest edge function, the retry wrapper and scan aggregation of the
gemini service module, and the persistence helpers around the job_matches
table. External effects (HTTP results, the email provider, the timezone
formatter) are passed in as explicit parameters or oracles.
-/

namespace JobAgent

/-- Score normalization of the send-digest edge function: a raw value at
most 1.5 is treated as fractional (0 to 1 scale) and rescaled by 100 before
rounding, a larger value is treated as already on the 0 to 100 scale and
only rounded. -/
def normalizeScore (raw : ℚ) : ℚ :=
  if raw ≤ 3 / 2 then ((round (raw * 100) : ℤ) : ℚ) else ((round raw : ℤ) : ℚ)

/-- Error value thrown by a wrapped remote call; the flag records whether
the failure carries a 429 rate-limit signal. -/
structure RErr where
  rateLimited : Bool
deriving DecidableEq, Repr

/-- Outcome of one attempt of the wrapped function. -/
inductive Attempt (α : Type) where
  | ok (a : α)
  | err (e : RErr)
deriving DecidableEq, Repr

/-- Trace of one retry run: the final result, total milliseconds slept
between attempts, and the number of calls made to the wrapped function. -/
structure RetryTrace (α : Type) where
  result : Except RErr α
  totalSleep : Nat
  calls : Nat
deriving Repr

/-- Loop body of the retry wrapper of the gemini service, with attempt
index i and the number of loop iterations still available. A rate-limited
failure with iterations remaining sleeps 2 ^ i * 2000 ms and retries; any
other failure, or the final iteration, rethrows the original error. The
zero-iteration base case is unreachable for a positive attempt budget. -/
def withRetryGo (f : Nat → Attempt α) : Nat → Nat → RetryTrace α
  | _, 0 => ⟨Except.error ⟨false⟩, 0, 0⟩
  | i, rem + 1 =>
    match f i with
    | .ok a => ⟨Except.ok a, 0, 1⟩
    | .err e =>
      if e.rateLimited = true ∧ 0 < rem then
        let t := withRetryGo f (i + 1) rem
        ⟨t.result, 2 ^ i * 2000 + t.totalSleep, t.calls + 1⟩
      else ⟨Except.error e, 0, 1⟩

/-- Retry wrapper with a budget of maxRetries attempts, starting at
attempt index 0. -/
def withRetry (f : Nat → Attempt α) (maxRetries : Nat) : RetryTrace α :=
  withRetryGo f 0 maxRetries

/-- Wrapped function that fails with a rate-limit signal on its first two
attempts and succeeds on the third. -/
def twiceRateLimited : Nat → Attempt Nat :=
  fun i => if i < 2 then .err ⟨true⟩ else .ok 7

/-- Wrapped function that always fails with a rate-limit signal. -/
def alwaysRateLimited : Nat → Attempt Nat :=
  fun _ => .err ⟨true⟩

/-- Wrapped function that fails immediately with a non-rate-limit error. -/
def failsOtherwise : Nat → Attempt Nat :=
  fun _ => .err ⟨false⟩

/-- Status of a stored job match, as constrained by the job_matches table. -/
inductive MatchStatus where
  | pending
  | accepted
  | dismissed
deriving DecidableEq, Repr

/-- Structured reasoning attached to a scored match, with the three arrays
the validated decode always supplies. -/
structure Reasoning where
  pros : List String
  cons : List String
  riskFactors : List String
deriving DecidableEq, Repr

/-- Scored match in the shape the frontend hands to saveJobMatches; an
empty string stands for a missing or empty field. -/
structure JobMatch where
  id : String
  title : String
  company : String
  location : String
  description : String
  score : ℚ
  reasoning : Reasoning
  link : String
  source : String
deriving DecidableEq, Repr

/-- Row of the job_matches table; createdAt is the insertion timestamp in
milliseconds supplied by the database default. -/
structure DbRow where
  id : String
  userId : String
  title : String
  company : String
  location : String
  description : String
  score : ℚ
  reasoning : Reasoning
  link : String
  status : MatchStatus
  source : String
  createdAt : Int
deriving DecidableEq, Repr

/-- Upsert payload row built by saveJobMatches; it carries every column of
the table except createdAt, which only the database fills in. -/
structure UpsertRow where
  id : String
  userId : String
  title : String
  company : String
  location : String
  description : String
  score : ℚ
  reasoning : Reasoning
  link : String
  status : MatchStatus
  source : String
deriving DecidableEq, Repr

/-- Guard filter of saveJobMatches: a match is kept only when both title
and company are nonempty, mirroring the JS truthiness test on the two
fields. -/
def keptMatches (ms : List JobMatch) : List JobMatch :=
  ms.filter (fun m => !(m.title == "") && !(m.company == ""))

/-- Payload row built by saveJobMatches for one kept match: status is
forced to pending on initial insert and an empty source falls back to the
manual tag. -/
def rowOfMatch (uid : String) (m : JobMatch) : UpsertRow :=
  { id := m.id, userId := uid, title := m.title, company := m.company,
    location := m.location, description := m.description, score := m.score,
    reasoning := m.reasoning, link := m.link, status := .pending,
    source := if m.source == "" then "manual" else m.source }

/-- Payload batch of saveJobMatches: the guarded matches mapped to rows. -/
def saveRows (uid : String) (ms : List JobMatch) : List UpsertRow :=
  (keptMatches ms).map (rowOfMatch uid)

/-- Overwrite of an existing row by an upsert payload on an id conflict:
every payload column is replaced and the row keeps its createdAt, which is
absent from the payload. -/
def overwriteRow (old : DbRow) (nr : UpsertRow) : DbRow :=
  { id := nr.id, userId := nr.userId, title := nr.title,
    company := nr.company, location := nr.location,
    description := nr.description, score := nr.score,
    reasoning := nr.reasoning, link := nr.link, status := nr.status,
    source := nr.source, createdAt := old.createdAt }

/-- Fresh row inserted for a payload whose id is not in the table yet; the
database stamps createdAt with the current time. -/
def insertRow (nr : UpsertRow) (now : Int) : DbRow :=
  { id := nr.id, userId := nr.userId, title := nr.title,
    company := nr.company, location := nr.location,
    description := nr.description, score := nr.score,
    reasoning := nr.reasoning, link := nr.link, status := nr.status,
    source := nr.source, createdAt := now }

/-- Upsert of one payload row keyed by id: replace the colliding row when
one exists, append a fresh row otherwise. -/
def upsertOne (store : List DbRow) (nr : UpsertRow) (now : Int) : List DbRow :=
  if store.any (fun r => r.id == nr.id) then
    store.map (fun r => if r.id == nr.id then overwriteRow r nr else r)
  else store ++ [insertRow nr now]

/-- Batch persistence of a scan result: the guarded payload rows upserted
into the job_matches store in order. -/
def saveJobMatches (store : List DbRow) (uid : String) (ms : List JobMatch)
    (now : Int) : List DbRow :=
  (saveRows uid ms).foldl (fun st nr => upsertOne st nr now) store

/-- Point status update of one match row by id. -/
def updateJobStatus (store : List DbRow) (matchId : String)
    (st : MatchStatus) : List DbRow :=
  store.map (fun r => if r.id == matchId then { r with status := st } else r)

/-- Scored match that has a title but an empty company field. -/
def titleOnlyMatch : JobMatch :=
  { id := "j1", title := "Engineer", company := "", location := "",
    description := "", score := 90, reasoning := ⟨[], [], []⟩, link := "",
    source := "" }

/-- Scored match with both title and company present. -/
def fullMatch : JobMatch :=
  { id := "j2", title := "Developer", company := "Acme", location := "",
    description := "", score := 85, reasoning := ⟨[], [], []⟩, link := "",
    source := "" }

/-- Stored row in status dismissed, with a score and reasoning recorded at
creation time. -/
def storedDismissed : DbRow :=
  { id := "j1", userId := "u1", title := "Old Title", company := "OldCo",
    location := "", description := "", score := 90,
    reasoning := ⟨["old pro"], [], []⟩, link := "", status := .dismissed,
    source := "linkedin", createdAt := 100 }

/-- Re-scanned match whose id collides with the stored dismissed row but
carries a different score and reasoning. -/
def rescannedMatch : JobMatch :=
  { id := "j1", title := "New Title", company := "NewCo", location := "",
    description := "", score := 70, reasoning := ⟨[], [], []⟩, link := "",
    source := "linkedin" }

/-- Candidate job in the common shape produced by every source adapter. -/
structure Job where
  id : String
  title : String
  company : String
  location : String
  link : String
  description : String
  source : String
deriving DecidableEq, Repr

/-- Per-adapter catch in the scan handler: a rejected fetch resolves to an
empty list instead of failing the scan. -/
def catchEmpty (r : Except String (List Job)) : List Job :=
  match r with
  | .ok js => js
  | .error _ => []

/-- Tagging of the LLM-grounded search results with the fixed linkedin
source tag; the other adapters self-tag. -/
def tagLinkedIn (js : List Job) : List Job :=
  js.map (fun j => { j with source := "linkedin" })

/-- Job aggregation of the scan handler: the three adapters are fetched
with isolated failures, the gemini results are tagged, and all results are
concatenated in adapter order. -/
def aggregateJobs (gemini aa jsearch : Except String (List Job)) : List Job :=
  tagLinkedIn (catchEmpty gemini) ++ catchEmpty aa ++ catchEmpty jsearch

/-- Short-circuit or of JS over strings: the first operand unless it is
empty. -/
def orEmpty (a b : String) : String :=
  if a == "" then b else a

/-- Raw job of the Arbeitsagentur upstream API. -/
structure AAJob where
  hashId : String
  titel : String
  arbeitgeber : String
  beruf : String
  ort : String
  region : String
  land : String
  refnr : String
  eintrittsdatum : String
deriving DecidableEq, Repr

/-- Mapping of one Arbeitsagentur job into the common shape, defaulting the
missing fields to placeholder strings and a source-appropriate location. -/
def aaToJob (j : AAJob) : Job :=
  { id := "aa-" ++ j.hashId,
    title := orEmpty j.titel (orEmpty j.beruf "Untitled Position"),
    company := orEmpty j.arbeitgeber "Unknown Employer",
    location := orEmpty
      (String.intercalate ", "
        (([j.ort, j.region, j.land]).filter (fun s => !(s == ""))))
      "Germany",
    link := "https://www.arbeitsagentur.de/jobsuche/suche?id=" ++ j.hashId,
    description := j.beruf ++ ". Eintritt: " ++
      orEmpty j.eintrittsdatum "N/A" ++ ". Ref: " ++ orEmpty j.refnr "N/A",
    source := "arbeitsagentur" }

/-- Boundary behaviour of the Arbeitsagentur adapter: a non-ok HTTP
response resolves to an empty list instead of throwing. -/
def fetchArbeitsagenturJobs (resOk : Bool) (payload : List AAJob) : List Job :=
  if resOk then payload.map aaToJob else []

/-- Concrete job used in adapter-failure witnesses. -/
def sampleJob : Job :=
  { id := "g-1", title := "Engineer", company := "Acme", location := "Remote",
    link := "#", description := "", source := "" }

/-- Second concrete job used in adapter-failure witnesses. -/
def sampleJobB : Job :=
  { id := "js-1", title := "Designer", company := "Beta", location := "Berlin",
    link := "#", description := "", source := "jsearch" }

/-- Descending-score row order used by the digest match query. -/
def scoreDesc (a b : DbRow) : Prop :=
  b.score ≤ a.score

instance : DecidableRel scoreDesc :=
  fun a b => inferInstanceAs (Decidable (b.score ≤ a.score))

instance : IsTotal DbRow scoreDesc :=
  ⟨fun a b => le_total b.score a.score⟩

instance : IsTrans DbRow scoreDesc :=
  ⟨fun _ _ _ h1 h2 => le_trans h2 h1⟩

/-- Row predicate of the digest match query: owned by the user, not
dismissed, and created inside the time window when one is given. -/
def matchPred (uid : String) (since : Option Int) (r : DbRow) : Bool :=
  r.userId == uid && !(r.status == MatchStatus.dismissed) &&
    (match since with
     | some s => decide (s ≤ r.createdAt)
     | none => true)

/-- Stored-match query of the digest sender: rows matching the predicate,
ordered by score descending, limited to 20 rows. -/
def queryMatches (db : List DbRow) (uid : String) (since : Option Int) :
    List DbRow :=
  ((db.filter (matchPred uid since)).insertionSort scoreDesc).take 20

/-- Settings row of one user as read by the digest sender; none stands for
a null column. -/
structure SettingsRow where
  digestEmail : Option String
  matchThreshold : Option ℚ
  lastDigestSentAt : Option Int
  displayName : String
  timezone : String
  automationEnabled : Bool
deriving DecidableEq, Repr

/-- Input of one sendDigestForUser run: the request body fields, the mode
flags, the loaded settings, the job_matches table, and the outcomes of the
two external calls (match query and email provider). -/
structure DigestInput where
  userId : String
  userEmail : String
  bodyEmail : String
  bodyThreshold : Option ℚ
  isTest : Bool
  isDiagnostic : Bool
  settings : SettingsRow
  db : List DbRow
  dbError : Bool
  resendOk : Bool
  now : Int
deriving Repr

/-- Observable outcome of one sendDigestForUser run: HTTP status, the
selected match set, the mock-data flag, whether an email went out, the
value written to lastDigestSentAt (none when unchanged), and the headline
numbers. -/
structure DigestOutcome where
  status : Nat
  selected : List DbRow
  usedMockData : Bool
  sent : Bool
  stampedAt : Option Int
  threshold : ℚ
  highestScore : ℚ
  totalFetched : Nat
deriving DecidableEq, Repr

/-- Fixed illustrative matches substituted in test mode when the database
holds nothing; fields absent from the source literals are defaulted. -/
def mockMatches : List DbRow :=
  [{ id := "mock-1", userId := "", title := "Lead AI Architect",
     company := "MyCareerBrain", location := "Remote", description := "",
     score := 97, reasoning := ⟨[], [], []⟩, link := "#",
     status := .pending, source := "featured", createdAt := 0 },
   { id := "mock-2", userId := "", title := "Senior Product Designer",
     company := "Notion", location := "Berlin / Remote", description := "",
     score := 91, reasoning := ⟨[], [], []⟩, link := "#",
     status := .pending, source := "linkedin", createdAt := 0 },
   { id := "mock-3", userId := "", title := "Head of Growth",
     company := "Linear", location := "Remote", description := "",
     score := 85, reasoning := ⟨[], [], []⟩, link := "#",
     status := .pending, source := "jsearch", createdAt := 0 }]

/-- Recipient resolution: explicit body email, else the stored digest
email, else the account email of the caller. -/
def resolveRecipient (inp : DigestInput) : String :=
  orEmpty inp.bodyEmail
    (orEmpty (inp.settings.digestEmail.getD "") inp.userEmail)

/-- Effective threshold: explicit body threshold, else the stored match
threshold, else the default of 80. -/
def effectiveThreshold (inp : DigestInput) : ℚ :=
  inp.bodyThreshold.getD (inp.settings.matchThreshold.getD 80)

/-- Time-window lower bound of the non-test path: the stored
lastDigestSentAt when present, otherwise now minus 24 hours in
milliseconds. -/
def digestSince (settings : SettingsRow) (now : Int) : Int :=
  match settings.lastDigestSentAt with
  | some t => t
  | none => now - 24 * 60 * 60 * 1000

/-- Maximum score of a list of rows, with the guarded fallback of 0 for an
empty list. -/
def highestOf (l : List DbRow) : ℚ :=
  match l with
  | [] => 0
  | r :: rs => rs.foldl (fun acc x => max acc x.score) r.score

/-- Normalization of one fetched row before comparison. -/
def normalizeRow (r : DbRow) : DbRow :=
  { r with score := normalizeScore r.score }

/-- Normalized fetch of the test fast-path: all non-dismissed matches of
the user, no time filter, a query error tolerated as an empty list. -/
def fetchedTest (inp : DigestInput) : List DbRow :=
  (if inp.dbError then [] else queryMatches inp.db inp.userId none).map
    normalizeRow

/-- Match set of the test fast-path: the normalized fetch, or the mock
batch when the database holds nothing. -/
def selectTest (inp : DigestInput) : List DbRow :=
  if (fetchedTest inp).isEmpty then mockMatches else fetchedTest inp

/-- Normalized fetch of the real automated path: non-dismissed matches of
the user created inside the time window. -/
def fetchedNonTest (inp : DigestInput) : List DbRow :=
  (queryMatches inp.db inp.userId
    (some (digestSince inp.settings inp.now))).map normalizeRow

/-- Match set of the real automated path: the normalized fetch filtered to
scores at or above the effective threshold. -/
def selectNonTest (inp : DigestInput) : List DbRow :=
  (fetchedNonTest inp).filter (fun r => effectiveThreshold inp ≤ r.score)

/-- Core digest logic for one user, mirroring sendDigestForUser of the
send-digest edge function: recipient check, test fast-path without time
filter or threshold gate, real path with window and threshold, diagnostic
short-circuit, email send, and the lastDigestSentAt stamp on successful
real sends only. -/
def sendDigestForUser (inp : DigestInput) : DigestOutcome :=
  if resolveRecipient inp == "" then
    ⟨400, [], false, false, none, 0, 0, 0⟩
  else
    let thr := effectiveThreshold inp
    if inp.isTest then
      let sel := selectTest inp
      let usedMock := (fetchedTest inp).isEmpty
      let highest := highestOf sel
      if inp.isDiagnostic then
        ⟨200, sel, usedMock, false, none, thr, highest,
          (fetchedTest inp).length⟩
      else if inp.resendOk then
        ⟨200, sel, usedMock, true, none, thr, highest,
          (fetchedTest inp).length⟩
      else
        ⟨502, sel, usedMock, false, none, thr, highest,
          (fetchedTest inp).length⟩
    else
      if inp.dbError then
        ⟨500, [], false, false, none, thr, 0, 0⟩
      else
        let sel := selectNonTest inp
        let highest := highestOf (fetchedNonTest inp)
        if inp.isDiagnostic then
          ⟨200, sel, false, false, none, thr, highest,
            (fetchedNonTest inp).length⟩
        else if inp.resendOk then
          ⟨200, sel, false, true, some inp.now, thr, highest,
            (fetchedNonTest inp).length⟩
        else
          ⟨502, sel, false, false, none, thr, highest,
            (fetchedNonTest inp).length⟩

/-- Identity of the digest endpoint caller as classified by the serve
handler. -/
inductive Caller where
  | service (userId : Option String)
  | userJwt (userId : String)
deriving DecidableEq, Repr

/-- Test flag that the serve handler passes to sendDigestForUser: the
broadcast path dispatches every user with false, the service path with an
explicit user honors the body flag, and a user JWT is always forced into
test mode. -/
def serveIsTest : Caller → Bool → Bool
  | .service (some _), bodyTest => bodyTest
  | .service none, _ => false
  | .userJwt _, _ => true

/-- One automation-enabled user as seen by the broadcast loop. -/
structure BUser where
  userId : String
  settings : SettingsRow
deriving DecidableEq, Repr

/-- Timezone resolution of the broadcast loop: the stored zone, defaulting
to UTC when unset. -/
def resolveTz (u : BUser) : String :=
  if u.settings.timezone == "" then "UTC" else u.settings.timezone

/-- Per-user outcome of one broadcast invocation. -/
inductive BOutcome where
  | skipped (userId : String) (tz : String)
  | processed (userId : String) (res : DigestOutcome)
deriving DecidableEq, Repr

/-- Loop body of the broadcast: a user whose local hour is not 8 is
recorded as skipped, otherwise the digest sender runs for the user. The
hour computation in the stored zone is an oracle parameter. -/
def broadcastStep (hourIn : String → Nat)
    (digestOf : BUser → DigestOutcome) (u : BUser) : BOutcome :=
  if hourIn (resolveTz u) == 8 then .processed u.userId (digestOf u)
  else .skipped u.userId (resolveTz u)

/-- Broadcast over all automation-enabled users: the per-user outcomes in
order, paired with the list of users for which the digest sender was
actually invoked. -/
def broadcastAll (users : List BUser) (hourIn : String → Nat)
    (digestOf : BUser → DigestOutcome) : List BOutcome × List String :=
  users.foldl
    (fun acc u =>
      if hourIn (resolveTz u) == 8 then
        (acc.1 ++ [BOutcome.processed u.userId (digestOf u)],
         acc.2 ++ [u.userId])
      else
        (acc.1 ++ [BOutcome.skipped u.userId (resolveTz u)], acc.2))
    ([], [])

/-- Settings row with every optional column null and no timezone. -/
def emptySettings : SettingsRow :=
  { digestEmail := none, matchThreshold := none, lastDigestSentAt := none,
    displayName := "", timezone := "", automationEnabled := true }

/-- Test-mode digest input over an empty job_matches table. -/
def emptyDbTestInput : DigestInput :=
  { userId := "u1", userEmail := "user@example.com", bodyEmail := "",
    bodyThreshold := none, isTest := true, isDiagnostic := false,
    settings := emptySettings, db := [], dbError := false,
    resendOk := true, now := 0 }

/-- Stored row qualifying for the digest window of the witness input. -/
def recentRow : DbRow :=
  { id := "r1", userId := "u1", title := "Engineer", company := "Acme",
    location := "", description := "", score := 91,
    reasoning := ⟨[], [], []⟩, link := "", status := .pending,
    source := "linkedin", createdAt := 500 }

/-- Non-test digest input holding one qualifying stored row. -/
def oneRowInput : DigestInput :=
  { userId := "u1", userEmail := "user@example.com", bodyEmail := "",
    bodyThreshold := none, isTest := false, isDiagnostic := false,
    settings := { emptySettings with lastDigestSentAt := some 400 },
    db := [recentRow], dbError := false, resendOk := true, now := 1000 }

/-- Test-mode digest input holding one stored row below the default
threshold. -/
def lowScoreTestInput : DigestInput :=
  { userId := "u1", userEmail := "user@example.com", bodyEmail := "",
    bodyThreshold := none, isTest := true, isDiagnostic := false,
    settings := emptySettings,
    db := [{ recentRow with score := 40 }], dbError := false,
    resendOk := true, now := 1000 }

/-- Row shared by every entry of the 21-row table used against the claimed
query cap. -/
def cheapRow : DbRow :=
  { id := "c", userId := "u1", title := "T", company := "C", location := "",
    description := "", score := 50, reasoning := ⟨[], [], []⟩, link := "",
    status := .pending, source := "s", createdAt := 0 }

/-- Table of 21 rows that all qualify for the digest query. -/
def bigDb : List DbRow :=
  List.replicate 21 cheapRow

/-- Broadcast user whose stored timezone is unset. -/
def utcUser : BUser :=
  { userId := "u1", settings := emptySettings }

/-- Broadcast user with a stored timezone. -/
def berlinUser : BUser :=
  { userId := "u2", settings := { emptySettings with timezone := "Europe/Berlin" } }

/-- Hour oracle placing Europe/Berlin at 8 and everything else at 7. -/
def berlinAtEight : String → Nat :=
  fun tz => if tz == "Europe/Berlin" then 8 else 7

/-- Digest oracle used by broadcast witnesses: every processed user yields
a fixed successful outcome. -/
def constDigest : BUser → DigestOutcome :=
  fun _ => ⟨200, [], false, true, some 0, 80, 0, 0⟩

end JobAgent

namespace JobAgent

/-- Claim C2: normalization yields round(s * 100) for raw scores between 0
and 1.5, round(s) for raw scores above 1.5, and is therefore idempotent on
already-normalized integer scores in the range 2 to 100. -/
theorem normalizeScore_spec :
    (∀ s : ℚ, 0 ≤ s → s ≤ 3 / 2 → normalizeScore s = ((round (s * 100) : ℤ) : ℚ)) ∧
    (∀ s : ℚ, 3 / 2 < s → normalizeScore s = ((round s : ℤ) : ℚ)) ∧
    (∀ n : ℤ, 2 ≤ n → n ≤ 100 →
      normalizeScore (normalizeScore (n : ℚ)) = normalizeScore (n : ℚ)) := by
  refine ⟨fun s _ h1 => by simp [normalizeScore, h1], fun s h => ?_, fun n h2 _ => ?_⟩
  · simp [normalizeScore, not_le.mpr h]
  · have hn : (3 / 2 : ℚ) < (n : ℚ) := by
      calc (3 / 2 : ℚ) < 2 := by norm_num
        _ ≤ (n : ℚ) := by exact_mod_cast h2
    have hfix : normalizeScore (n : ℚ) = (n : ℚ) := by
      simp [normalizeScore, not_le.mpr hn]
    rw [hfix]
    exact hfix

/-- Witness for claim C2 at concrete scores 0.91 and 88. -/
theorem normalizeScore_spec_witness :
    normalizeScore (91 / 100) = ((round ((91 : ℚ) / 100 * 100) : ℤ) : ℚ) ∧
    normalizeScore 88 = ((round (88 : ℚ) : ℤ) : ℚ) ∧
    normalizeScore (normalizeScore ((88 : ℤ) : ℚ)) = normalizeScore ((88 : ℤ) : ℚ) :=
  ⟨normalizeScore_spec.1 (91 / 100) (by norm_num) (by norm_num),
   normalizeScore_spec.2.1 88 (by norm_num),
   normalizeScore_spec.2.2 88 (by norm_num) (by norm_num)⟩

/-- Claim C3: a rate-limited failure with attempts remaining sleeps
2 ^ attempt * 2000 ms and retries; a non-rate-limit failure propagates at
once with no retry; with maxAttempts 3, two rate-limited failures followed
by a success yield a success after 6000 ms of total sleep and 3 calls, and
a function that always fails rate-limited throws the original error after
exactly 3 calls. -/
theorem withRetry_spec (f : Nat → Attempt α) (e₀ e₁ : RErr) (a : α) :
    (∀ i rem e, f i = .err e → e.rateLimited = true → 0 < rem →
      withRetryGo f i (rem + 1) =
        ⟨(withRetryGo f (i + 1) rem).result,
         2 ^ i * 2000 + (withRetryGo f (i + 1) rem).totalSleep,
         (withRetryGo f (i + 1) rem).calls + 1⟩) ∧
    (∀ i rem e, f i = .err e → e.rateLimited = false →
      withRetryGo f i (rem + 1) = ⟨Except.error e, 0, 1⟩) ∧
    (f 0 = .err e₀ → e₀.rateLimited = true → f 1 = .err e₁ → e₁.rateLimited = true →
      f 2 = .ok a → withRetry f 3 = ⟨Except.ok a, 6000, 3⟩) ∧
    ((∀ i, f i = .err e₀) → e₀.rateLimited = true →
      withRetry f 3 = ⟨Except.error e₀, 6000, 3⟩) := by
  refine ⟨?_, ?_, ?_, ?_⟩
  · intro i rem e hf he hrem
    simp [withRetryGo, hf, he, hrem]
  · intro i rem e hf he
    simp [withRetryGo, hf, he]
  · intro h0 he0 h1 he1 h2
    simp [withRetry, withRetryGo, h0, he0, h1, he1, h2]
  · intro hall he
    simp [withRetry, withRetryGo, hall 0, hall 1, hall 2, he]

/-- Witness for claim C3 on three concrete wrapped functions. -/
theorem withRetry_spec_witness :
    withRetry twiceRateLimited 3 = ⟨Except.ok 7, 6000, 3⟩ ∧
    withRetry alwaysRateLimited 3 = ⟨Except.error ⟨true⟩, 6000, 3⟩ ∧
    withRetryGo failsOtherwise 0 1 = ⟨Except.error ⟨false⟩, 0, 1⟩ :=
  ⟨(withRetry_spec twiceRateLimited ⟨true⟩ ⟨true⟩ 7).2.2.1 rfl rfl rfl rfl rfl,
   (withRetry_spec alwaysRateLimited ⟨true⟩ ⟨true⟩ 7).2.2.2 (fun _ => rfl) rfl,
   (withRetry_spec failsOtherwise ⟨false⟩ ⟨false⟩ 7).2.1 0 0 ⟨false⟩ rfl rfl⟩

/-- Claim C7 counterexample: a scored match with a title but an empty
company field is claimed to be kept, yet the persistence guard drops it
and nothing is persisted. -/
theorem saveJobMatches_guard_counterexample :
    titleOnlyMatch.title ≠ "" ∧ keptMatches [titleOnlyMatch] = [] ∧
    saveJobMatches [] "u1" [titleOnlyMatch] 0 = [] :=
  ⟨by decide, by decide, by decide⟩

/-- Claim C7 (amended): before the scan batch is persisted, exactly the
rows missing title or company (at least one of the two) are dropped as
malformed; a scored match is kept and persisted precisely when both title
and company are present. -/
theorem saveJobMatches_guard (uid : String) (ms : List JobMatch) (m : JobMatch) :
    (m ∈ keptMatches ms ↔ m ∈ ms ∧ m.title ≠ "" ∧ m.company ≠ "") ∧
    (m ∈ ms → m.title ≠ "" → m.company ≠ "" →
      rowOfMatch uid m ∈ saveRows uid ms) ∧
    (m.title = "" ∨ m.company = "" → m ∉ keptMatches ms) := by
  have hmem : m ∈ keptMatches ms ↔ m ∈ ms ∧ m.title ≠ "" ∧ m.company ≠ "" := by
    simp [keptMatches, List.mem_filter]
  refine ⟨hmem, fun hm ht hc => ?_, fun h hk => ?_⟩
  · exact List.mem_map.mpr ⟨m, hmem.mpr ⟨hm, ht, hc⟩, rfl⟩
  · rcases hmem.mp hk with ⟨-, ht, hc⟩
    rcases h with h | h
    · exact ht h
    · exact hc h

/-- Witness for claim C7: a match with both fields present is kept and
its payload row is persisted. -/
theorem saveJobMatches_guard_witness :
    rowOfMatch "u1" fullMatch ∈ saveRows "u1" [fullMatch] :=
  (saveJobMatches_guard "u1" [fullMatch] fullMatch).2.1 (by decide) (by decide)
    (by decide)

/-- Claim C8 counterexample: re-persisting a re-scanned batch whose id
collides with a stored dismissed row overwrites its score and reasoning
and resets its status to pending, a transition outside the allowed set. -/
theorem jobMatches_mutation_counterexample :
    (saveJobMatches [storedDismissed] "u1" [rescannedMatch] 200).map
        (fun r => r.score) = [70] ∧
    (saveJobMatches [storedDismissed] "u1" [rescannedMatch] 200).map
        (fun r => r.status) = [MatchStatus.pending] ∧
    (saveJobMatches [storedDismissed] "u1" [rescannedMatch] 200).map
        (fun r => r.reasoning) = [⟨[], [], []⟩] ∧
    storedDismissed.score = 90 ∧ storedDismissed.status = .dismissed ∧
    storedDismissed.reasoning = ⟨["old pro"], [], []⟩ :=
  ⟨by decide, by decide, by decide, by decide, by decide, by decide⟩

/-- Claim C8 (amended): a stored match row is mutated by the point status
update, which rewrites only the status of the row with the targeted id and
never touches score, reasoning or createdAt; and by the batch upsert of
saveJobMatches, which on an id collision overwrites every payload column
including score and reasoning and resets status to pending, keeping only
createdAt; every payload row of saveJobMatches carries status pending. -/
theorem jobMatches_mutation_spec (store : List DbRow) (mid : String)
    (st : MatchStatus) (nr : UpsertRow) (now : Int) :
    (∀ r2 ∈ updateJobStatus store mid st, ∃ r ∈ store,
        r2.id = r.id ∧ r2.score = r.score ∧ r2.reasoning = r.reasoning ∧
        r2.createdAt = r.createdAt ∧
        (r2 = r ∨ (r.id = mid ∧ r2.status = st))) ∧
    (∀ r ∈ store, r.id = nr.id →
        overwriteRow r nr ∈ upsertOne store nr now ∧
        (overwriteRow r nr).score = nr.score ∧
        (overwriteRow r nr).reasoning = nr.reasoning ∧
        (overwriteRow r nr).status = nr.status ∧
        (overwriteRow r nr).createdAt = r.createdAt) ∧
    (∀ u2 ms x, x ∈ saveRows u2 ms → x.status = .pending) := by
  refine ⟨fun r2 h => ?_, fun r hr hid => ?_, fun u2 ms x hx => ?_⟩
  · obtain ⟨r, hr, heq⟩ := List.mem_map.mp h
    by_cases hb : (r.id == mid) = true
    · simp only [hb, if_true] at heq
      subst heq
      exact ⟨r, hr, rfl, rfl, rfl, rfl, Or.inr ⟨by simpa using hb, rfl⟩⟩
    · simp only [hb, if_false] at heq
      subst heq
      exact ⟨r, hr, rfl, rfl, rfl, rfl, Or.inl rfl⟩
  · have hany : store.any (fun r => r.id == nr.id) = true :=
      List.any_eq_true.mpr ⟨r, hr, by simp [hid]⟩
    refine ⟨?_, rfl, rfl, rfl, rfl⟩
    simp only [upsertOne, hany, if_true]
    exact List.mem_map.mpr ⟨r, hr, by simp [hid]⟩
  · obtain ⟨m, -, h⟩ := List.mem_map.mp hx
    subst h
    rfl

/-- Witness for claim C8 at the stored dismissed row and the colliding
re-scan payload. -/
theorem jobMatches_mutation_spec_witness :
    overwriteRow storedDismissed (rowOfMatch "u1" rescannedMatch) ∈
      upsertOne [storedDismissed] (rowOfMatch "u1" rescannedMatch) 200 ∧
    (overwriteRow storedDismissed (rowOfMatch "u1" rescannedMatch)).status =
      (rowOfMatch "u1" rescannedMatch).status ∧
    (rowOfMatch "u1" rescannedMatch).status = MatchStatus.pending :=
  have h := (jobMatches_mutation_spec [storedDismissed] "j1" .accepted
    (rowOfMatch "u1" rescannedMatch) 200).2.1 storedDismissed (by decide) rfl
  ⟨h.1, h.2.2.2.1,
   (jobMatches_mutation_spec [storedDismissed] "j1" .accepted
     (rowOfMatch "u1" rescannedMatch) 200).2.2 "u1" [rescannedMatch]
     (rowOfMatch "u1" rescannedMatch) (by decide)⟩

/-- Claim C9: with the three source adapters, every failing adapter
resolves to an empty sequence, the aggregate is the concatenation of the
successful adapters, the total count is the sum of the successful counts,
and a non-ok upstream response of the Arbeitsagentur adapter resolves to
an empty list at its own boundary. -/
theorem aggregateJobs_spec (gemini aa jsearch : Except String (List Job)) :
    (aggregateJobs gemini aa jsearch).length =
      (catchEmpty gemini).length + (catchEmpty aa).length +
        (catchEmpty jsearch).length ∧
    (∀ e, gemini = .error e →
      aggregateJobs gemini aa jsearch = catchEmpty aa ++ catchEmpty jsearch) ∧
    (∀ e, aa = .error e →
      aggregateJobs gemini aa jsearch =
        tagLinkedIn (catchEmpty gemini) ++ catchEmpty jsearch) ∧
    (∀ e, jsearch = .error e →
      aggregateJobs gemini aa jsearch =
        tagLinkedIn (catchEmpty gemini) ++ catchEmpty aa) ∧
    (∀ e, catchEmpty (.error e) = ([] : List Job)) ∧
    (∀ payload, fetchArbeitsagenturJobs false payload = []) := by
  refine ⟨?_, fun e he => ?_, fun e he => ?_, fun e he => ?_,
    fun e => rfl, fun payload => rfl⟩
  · simp [aggregateJobs, tagLinkedIn, Nat.add_assoc]
  · simp [he, aggregateJobs, catchEmpty, tagLinkedIn]
  · simp [he, aggregateJobs, catchEmpty]
  · simp [he, aggregateJobs, catchEmpty]

/-- Witness for claim C9 with a failing middle adapter. -/
theorem aggregateJobs_spec_witness :
    aggregateJobs (.ok [sampleJob]) (.error "boom") (.ok [sampleJobB]) =
      tagLinkedIn (catchEmpty (.ok [sampleJob])) ++
        catchEmpty (.ok [sampleJobB]) ∧
    (aggregateJobs (.ok [sampleJob]) (.error "boom") (.ok [sampleJobB])).length =
      (catchEmpty (Except.ok [sampleJob])).length +
        (catchEmpty (Except.error "boom" : Except String (List Job))).length +
        (catchEmpty (Except.ok [sampleJobB])).length :=
  ⟨(aggregateJobs_spec (.ok [sampleJob]) (.error "boom") (.ok [sampleJobB])).2.2.1
      "boom" rfl,
   (aggregateJobs_spec (.ok [sampleJob]) (.error "boom") (.ok [sampleJobB])).1⟩

/-- Rows returned by the digest query satisfy its filter predicate. -/
theorem mem_queryMatches {db : List DbRow} {uid : String} {since : Option Int}
    {r : DbRow} (h : r ∈ queryMatches db uid since) :
    matchPred uid since r = true := by
  unfold queryMatches at h
  have h2 : r ∈ (db.filter (matchPred uid since)).insertionSort scoreDesc :=
    (List.take_sublist _ _).subset h
  rw [List.mem_insertionSort] at h2
  exact (List.mem_filter.mp h2).2

/-- Unpacking of the digest query filter predicate. -/
theorem matchPred_spec {uid : String} {since : Option Int} {r : DbRow}
    (h : matchPred uid since r = true) :
    r.userId = uid ∧ r.status ≠ MatchStatus.dismissed ∧
      ∀ s, since = some s → s ≤ r.createdAt := by
  unfold matchPred at h
  cases since with
  | none =>
    simp only [Bool.and_true, Bool.and_eq_true, beq_iff_eq,
      Bool.not_eq_true', beq_eq_false_iff_ne, ne_eq] at h
    exact ⟨h.1, h.2, fun s hs => by cases hs⟩
  | some s0 =>
    simp only [Bool.and_eq_true, beq_iff_eq, Bool.not_eq_true',
      beq_eq_false_iff_ne, ne_eq, decide_eq_true_eq] at h
    exact ⟨h.1.1, h.1.2, fun s hs => by cases hs; exact h.2⟩

/-- The non-test path of the digest sender selects via selectNonTest or
returns an empty set on an early exit. -/
theorem nontest_selected (inp : DigestInput) (hT : inp.isTest = false) :
    (sendDigestForUser inp).selected = selectNonTest inp ∨
    (sendDigestForUser inp).selected = [] := by
  unfold sendDigestForUser
  rw [hT]
  by_cases h1 : (resolveRecipient inp == "") = true
  · simp [h1]
  · by_cases h2 : inp.dbError = true
    · simp [h1, h2]
    · by_cases h3 : inp.isDiagnostic = true <;>
        by_cases h4 : inp.resendOk = true <;>
          simp [h1, h2, h3, h4]

/-- The non-test path with a recipient, a clean match load, no diagnostic
flag and a successful send produces the full success outcome. -/
theorem nontest_happy (inp : DigestInput) (hT : inp.isTest = false)
    (hrec : (resolveRecipient inp == "") = false) (hdb : inp.dbError = false)
    (hdiag : inp.isDiagnostic = false) (hok : inp.resendOk = true) :
    sendDigestForUser inp =
      ⟨200, selectNonTest inp, false, true, some inp.now,
        effectiveThreshold inp, highestOf (fetchedNonTest inp),
        (fetchedNonTest inp).length⟩ := by
  unfold sendDigestForUser
  simp [hT, hrec, hdb, hdiag, hok]

/-- Integer scores of at least 2 are fixed by normalization. -/
theorem normalizeScore_natCast (n : ℕ) (h : 2 ≤ n) :
    normalizeScore (n : ℚ) = (n : ℚ) := by
  have hn : ¬((n : ℚ) ≤ 3 / 2) := by
    rw [not_le]
    calc (3 / 2 : ℚ) < 2 := by norm_num
      _ ≤ (n : ℚ) := by exact_mod_cast h
  simp [normalizeScore, hn]

/-- Selection outcome of the one-row witness input. -/
theorem oneRow_selected :
    (sendDigestForUser oneRowInput).selected = [normalizeRow recentRow] := by
  have hq : queryMatches oneRowInput.db oneRowInput.userId
      (some (digestSince oneRowInput.settings oneRowInput.now)) =
        [recentRow] := by decide
  have hf : fetchedNonTest oneRowInput = [normalizeRow recentRow] := by
    unfold fetchedNonTest
    rw [hq]
    rfl
  have hns : normalizeScore (91 : ℚ) = 91 := by
    have := normalizeScore_natCast 91 (by norm_num)
    simpa using this
  have hth : effectiveThreshold oneRowInput ≤ (normalizeRow recentRow).score := by
    show effectiveThreshold oneRowInput ≤ normalizeScore recentRow.score
    have h80 : effectiveThreshold oneRowInput = 80 := rfl
    have h91 : recentRow.score = 91 := rfl
    rw [h80, h91, hns]
    norm_num
  have hsel : selectNonTest oneRowInput = [normalizeRow recentRow] := by
    unfold selectNonTest
    rw [hf]
    simp [hth]
  rw [nontest_happy oneRowInput rfl (by decide) rfl rfl rfl]
  exact hsel

/-- Claim C1: in every non-test digest selection, each match of the final
selected set has a normalized score at or above the effective threshold,
was created at or after the window bound since, and is not dismissed,
where since is the stored lastDigestSentAt when present and otherwise now
minus 24 hours. -/
theorem digest_nontest_selection (inp : DigestInput) (hT : inp.isTest = false)
    (m : DbRow) (hm : m ∈ (sendDigestForUser inp).selected) :
    effectiveThreshold inp ≤ m.score ∧
    digestSince inp.settings inp.now ≤ m.createdAt ∧
    m.status ≠ MatchStatus.dismissed := by
  have hsel : m ∈ selectNonTest inp := by
    rcases nontest_selected inp hT with h | h
    · rwa [h] at hm
    · rw [h] at hm
      exact absurd hm (List.not_mem_nil m)
  unfold selectNonTest at hsel
  have hfil := List.mem_filter.mp hsel
  have hthr : effectiveThreshold inp ≤ m.score := by
    simpa using hfil.2
  have hmem := hfil.1
  unfold fetchedNonTest at hmem
  obtain ⟨r, hr, hnr⟩ := List.mem_map.mp hmem
  have hpred := matchPred_spec (mem_queryMatches hr)
  subst hnr
  exact ⟨hthr, hpred.2.2 _ rfl, hpred.2.1⟩

/-- Witness for claim C1 on a one-row table inside the window. -/
theorem digest_nontest_selection_witness :
    effectiveThreshold oneRowInput ≤ (normalizeRow recentRow).score ∧
    digestSince oneRowInput.settings oneRowInput.now ≤
      (normalizeRow recentRow).createdAt ∧
    (normalizeRow recentRow).status ≠ MatchStatus.dismissed :=
  digest_nontest_selection oneRowInput rfl (normalizeRow recentRow)
    (oneRow_selected ▸ List.mem_singleton_self (normalizeRow recentRow))

/-- Claim C4: the lastDigestSentAt column is stamped with the current time
exactly on a successful, non-test, non-diagnostic digest send with a
configured recipient and a successful match load; every other outcome of a
digest attempt leaves it unchanged. -/
theorem lastDigestSentAt_stamp (inp : DigestInput) :
    (sendDigestForUser inp).stampedAt =
      if inp.isTest = false ∧ inp.isDiagnostic = false ∧
          resolveRecipient inp ≠ "" ∧ inp.dbError = false ∧
          inp.resendOk = true
      then some inp.now else none := by
  unfold sendDigestForUser
  by_cases h1 : (resolveRecipient inp == "") = true
  · have h1e : resolveRecipient inp = "" := by simpa using h1
    simp [h1, h1e]
  · have hne : resolveRecipient inp ≠ "" := by simpa using h1
    cases hT : inp.isTest <;> cases hD : inp.isDiagnostic <;>
      cases hE : inp.dbError <;> cases hR : inp.resendOk <;>
        simp [h1, hne, hT, hD, hE, hR]

/-- Claim C6 counterexample: a table holding 21 qualifying rows is cut to
20 by the query limit, refuting the claimed cap of 50. -/
theorem queryMatches_cap_counterexample :
    bigDb.length = 21 ∧ (bigDb.filter (matchPred "u1" none)).length = 21 ∧
    (queryMatches bigDb "u1" none).length = 20 :=
  ⟨by decide, by decide, by decide⟩

/-- Claim C6 (amended): the stored-matches query of the digest selector
returns only rows of the given user with a status other than dismissed and,
when windowed, created at or after since, ordered by score descending, and
is capped at a maximum batch size of 20 rows. -/
theorem queryMatches_spec (db : List DbRow) (uid : String)
    (since : Option Int) :
    (∀ r ∈ queryMatches db uid since, r.userId = uid ∧
        r.status ≠ MatchStatus.dismissed ∧
        ∀ s, since = some s → s ≤ r.createdAt) ∧
    (queryMatches db uid since).length ≤ 20 ∧
    List.Sorted scoreDesc (queryMatches db uid since) := by
  refine ⟨fun r hr => matchPred_spec (mem_queryMatches hr), ?_, ?_⟩
  · exact List.length_take_le 20 _
  · exact List.Pairwise.sublist (List.take_sublist _ _)
      (List.sorted_insertionSort scoreDesc (db.filter (matchPred uid since)))

/-- Witness for claim C6 on a one-row table. -/
theorem queryMatches_spec_witness :
    recentRow.userId = "u1" ∧ recentRow.status ≠ MatchStatus.dismissed ∧
    (400 : Int) ≤ recentRow.createdAt ∧
    (queryMatches [recentRow] "u1" (some 400)).length ≤ 20 :=
  have h := (queryMatches_spec [recentRow] "u1" (some 400)).1 recentRow
    (by decide)
  ⟨h.1, h.2.1, h.2.2 400 rfl, (queryMatches_spec [recentRow] "u1" (some 400)).2.1⟩

/-- Foldl unrolling of the broadcast loop over an arbitrary accumulator. -/
theorem broadcastAll_foldl (hourIn : String → Nat)
    (digestOf : BUser → DigestOutcome) (users : List BUser)
    (acc : List BOutcome × List String) :
    users.foldl
      (fun acc u =>
        if hourIn (resolveTz u) == 8 then
          (acc.1 ++ [BOutcome.processed u.userId (digestOf u)],
           acc.2 ++ [u.userId])
        else
          (acc.1 ++ [BOutcome.skipped u.userId (resolveTz u)], acc.2)) acc =
    (acc.1 ++ users.map (broadcastStep hourIn digestOf),
     acc.2 ++ (users.filter (fun u => hourIn (resolveTz u) == 8)).map
        BUser.userId) := by
  induction users generalizing acc with
  | nil => simp
  | cons u us ih =>
    by_cases h : (hourIn (resolveTz u) == 8) = true
    · rw [List.foldl_cons]
      simp only [h, if_true]
      rw [ih]
      simp [broadcastStep, h, List.append_assoc]
    · have hb : (hourIn (resolveTz u) == 8) = false := by
        simpa using h
      rw [List.foldl_cons]
      simp only [hb, Bool.false_eq_true, if_false]
      rw [ih]
      simp [broadcastStep, hb, List.append_assoc]

/-- Claim C5: the broadcast records a user whose local hour in the stored
timezone (default UTC) is not 8 as skipped and never invokes the digest
sender for them; a user whose local hour is exactly 8 is processed and the
digest sender is invoked. -/
theorem broadcastAll_hour_gate (users : List BUser) (hourIn : String → Nat)
    (digestOf : BUser → DigestOutcome) :
    (broadcastAll users hourIn digestOf).1 =
      users.map (broadcastStep hourIn digestOf) ∧
    (broadcastAll users hourIn digestOf).2 =
      (users.filter (fun u => hourIn (resolveTz u) == 8)).map BUser.userId ∧
    (∀ u ∈ users, hourIn (resolveTz u) ≠ 8 →
      broadcastStep hourIn digestOf u =
        BOutcome.skipped u.userId (resolveTz u) ∧
      BOutcome.skipped u.userId (resolveTz u) ∈
        (broadcastAll users hourIn digestOf).1) ∧
    (∀ u ∈ users, hourIn (resolveTz u) = 8 →
      broadcastStep hourIn digestOf u =
        BOutcome.processed u.userId (digestOf u) ∧
      u.userId ∈ (broadcastAll users hourIn digestOf).2) := by
  have hfold := broadcastAll_foldl hourIn digestOf users ([], [])
  have h1 : (broadcastAll users hourIn digestOf).1 =
      users.map (broadcastStep hourIn digestOf) := by
    unfold broadcastAll
    rw [hfold]
    simp
  have h2 : (broadcastAll users hourIn digestOf).2 =
      (users.filter (fun u => hourIn (resolveTz u) == 8)).map BUser.userId := by
    unfold broadcastAll
    rw [hfold]
    simp
  refine ⟨h1, h2, fun u hu hne => ?_, fun u hu heq => ?_⟩
  · have hstep : broadcastStep hourIn digestOf u =
        BOutcome.skipped u.userId (resolveTz u) := by
      unfold broadcastStep
      rw [if_neg]
      simpa using hne
    refine ⟨hstep, ?_⟩
    rw [h1]
    exact List.mem_map.mpr ⟨u, hu, hstep⟩
  · have hstep : broadcastStep hourIn digestOf u =
        BOutcome.processed u.userId (digestOf u) := by
      unfold broadcastStep
      rw [if_pos]
      simpa using heq
    refine ⟨hstep, ?_⟩
    rw [h2]
    exact List.mem_map.mpr ⟨u, List.mem_filter.mpr ⟨hu, by simpa using heq⟩, rfl⟩

/-- Witness for claim C5: a UTC user at local hour 7 is skipped while a
Berlin user at local hour 8 is processed. -/
theorem broadcastAll_hour_gate_witness :
    broadcastStep berlinAtEight constDigest utcUser =
      BOutcome.skipped "u1" "UTC" ∧
    BOutcome.skipped "u1" "UTC" ∈
      (broadcastAll [utcUser, berlinUser] berlinAtEight constDigest).1 ∧
    broadcastStep berlinAtEight constDigest berlinUser =
      BOutcome.processed "u2" (constDigest berlinUser) ∧
    "u2" ∈ (broadcastAll [utcUser, berlinUser] berlinAtEight constDigest).2 :=
  have hs := (broadcastAll_hour_gate [utcUser, berlinUser] berlinAtEight
    constDigest).2.2.1 utcUser (by decide) (by decide)
  have hp := (broadcastAll_hour_gate [utcUser, berlinUser] berlinAtEight
    constDigest).2.2.2 berlinUser (by decide) (by decide)
  ⟨hs.1, hs.2, hp.1, hp.2⟩

/-- Claim C10 counterexample: a test-mode selection over an empty table
returns the fixed 3-item mock batch instead of the (empty) set of stored
non-dismissed matches. -/
theorem testmode_selection_counterexample :
    emptyDbTestInput.db = [] ∧
    (sendDigestForUser emptyDbTestInput).selected = mockMatches ∧
    (sendDigestForUser emptyDbTestInput).usedMockData = true ∧
    mockMatches.length = 3 :=
  ⟨rfl, by decide, by decide, rfl⟩

/-- Claim C10 (amended): every user-JWT invocation is forced into test
mode regardless of the request flag; in test mode the threshold filter is
not applied, so the selected set is the whole normalized non-dismissed
fetch (up to the query limit) whenever that fetch is nonempty, while an
empty fetch is substituted by the fixed mock batch; the threshold changes
only the reported headline values, never the selected set. -/
theorem testmode_selection_spec (inp : DigestInput) :
    (∀ uid bodyTest, serveIsTest (Caller.userJwt uid) bodyTest = true) ∧
    (inp.isTest = true → resolveRecipient inp ≠ "" → fetchedTest inp ≠ [] →
      (sendDigestForUser inp).selected = fetchedTest inp) ∧
    (inp.isTest = true → resolveRecipient inp ≠ "" → fetchedTest inp = [] →
      (sendDigestForUser inp).selected = mockMatches ∧
      (sendDigestForUser inp).usedMockData = true) ∧
    (∀ t, inp.isTest = true →
      (sendDigestForUser { inp with bodyThreshold := t }).selected =
        (sendDigestForUser inp).selected) ∧
    (∀ r ∈ fetchedTest inp, r.status ≠ MatchStatus.dismissed) := by
  refine ⟨fun uid bodyTest => rfl, fun hT hrec hne => ?_, fun hT hrec hemp => ?_,
    fun t hT => ?_, fun r hr => ?_⟩
  · have h1 : (resolveRecipient inp == "") = false := by simpa using hrec
    have hsel : selectTest inp = fetchedTest inp := by
      unfold selectTest
      rw [if_neg]
      simpa [List.isEmpty_iff] using hne
    unfold sendDigestForUser
    rw [hT]
    by_cases h3 : inp.isDiagnostic = true <;> by_cases h4 : inp.resendOk = true <;>
      simp [h1, h3, h4, hsel]
  · have h1 : (resolveRecipient inp == "") = false := by simpa using hrec
    have hsel : selectTest inp = mockMatches := by
      unfold selectTest
      rw [if_pos]
      simpa [List.isEmpty_iff] using hemp
    have hmk : (fetchedTest inp).isEmpty = true := by
      simpa [List.isEmpty_iff] using hemp
    unfold sendDigestForUser
    rw [hT]
    by_cases h3 : inp.isDiagnostic = true <;> by_cases h4 : inp.resendOk = true <;>
      simp [h1, h3, h4, hsel, hmk]
  · generalize hgen : { inp with bodyThreshold := t } = inp2
    have hT2 : inp2.isTest = true := by
      rw [← hgen]
      exact hT
    have hD2 : inp2.isDiagnostic = inp.isDiagnostic := by
      rw [← hgen]
    have hR2 : inp2.resendOk = inp.resendOk := by
      rw [← hgen]
    have hrec2 : resolveRecipient inp2 = resolveRecipient inp := by
      rw [← hgen]
      rfl
    have hfet2 : fetchedTest inp2 = fetchedTest inp := by
      rw [← hgen]
      rfl
    have hsel2 : selectTest inp2 = selectTest inp := by
      rw [← hgen]
      rfl
    unfold sendDigestForUser
    simp only [hT, hT2, hD2, hR2, hrec2, hfet2, hsel2]
    by_cases h1 : (resolveRecipient inp == "") = true <;>
      by_cases h3 : inp.isDiagnostic = true <;>
        by_cases h4 : inp.resendOk = true <;>
          simp [h1, h3, h4]
  · unfold fetchedTest at hr
    obtain ⟨r0, hr0, hnr⟩ := List.mem_map.mp hr
    by_cases hdb : inp.dbError = true
    · rw [if_pos hdb] at hr0
      exact absurd hr0 (List.not_mem_nil r0)
    · rw [if_neg hdb] at hr0
      have hpred := matchPred_spec (mem_queryMatches hr0)
      subst hnr
      exact hpred.2.1

/-- Witness for claim C10 on a table holding one row below the default
threshold. -/
theorem testmode_selection_spec_witness :
    (sendDigestForUser lowScoreTestInput).selected =
      fetchedTest lowScoreTestInput ∧
    serveIsTest (Caller.userJwt "u1") false = true :=
  ⟨(testmode_selection_spec lowScoreTestInput).2.1 rfl (by decide) (by decide),
   (testmode_selection_spec lowScoreTestInput).1 "u1" false⟩

end JobAgent
